import Mathlib

/-!
Shallow embedding of the AMR risk-assessment core: the question catalog and
scoring configuration (`shared/assessment.ts`), the scoring engine
(`server/scoring.ts`), the storage operations (`server/db.ts` together with the
drizzle schema and its uniqueness constraints), and the router operations
(`assessmentRouter`: createSession / getQuestion / submitResponse /
submitAssessment / getQuestions).

Numeric conventions: every number manipulated by the code is a non-negative
integer except the weighted total score and the two rounding steps, which the
source computes with JavaScript arithmetic (`Math.round`).  We model
`Math.round (num / den)` on non-negative integers by the exact integer formula
`(2 * num + den) / (2 * den)` (`natRound`), and prove it equal to
`⌊num / den + 1/2⌋` over ℚ (`natRound_eq_floor`), which is the JavaScript
rounding rule (ties round up).  The category weights 0.4 / 0.2 / 0.2 / 0.2 all
have denominator 5, so the weighted total `Σ percentage_c * weight_c` is carried
exactly as `totalScoreNum5 / 5` with `totalScoreNum5 : ℕ`; the lemma
`totalScoreNum5_spec` proves this equals the weighted sum over the entry order
used by the source.
-/

/-- The four assessment categories (`type Category` in `shared/assessment.ts`). -/
inductive Category where
  | behavioral
  | knowledge
  | environmental
  | socioeconomic
deriving DecidableEq, Repr

/-- The string name of a category, as used for record keys in the source. -/
def Category.name : Category → String
  | .behavioral => "behavioral"
  | .knowledge => "knowledge"
  | .environmental => "environmental"
  | .socioeconomic => "socioeconomic"

/-- The three risk levels (`type RiskLevel` in `shared/assessment.ts`). -/
inductive RiskLevel where
  | low
  | moderate
  | high
deriving DecidableEq, Repr

/-- `interface AssessmentOption`: an answer option with label text and points. -/
structure AssessmentOption where
  text : String
  points : ℕ
deriving DecidableEq, Repr

/-- `interface AssessmentQuestion`. -/
structure AssessmentQuestion where
  id : String
  number : ℕ
  category : Category
  question : String
  options : List AssessmentOption
deriving DecidableEq, Repr

/-- The full 12-question catalog (`ASSESSMENT_QUESTIONS` in `shared/assessment.ts`). -/
def ASSESSMENT_QUESTIONS : List AssessmentQuestion := [
  { id := "behavioral_1", number := 1, category := .behavioral,
    question := "Do you buy antibiotics without a doctor's prescription?",
    options := [⟨"Never", 0⟩, ⟨"Sometimes", 2⟩, ⟨"Often", 3⟩] },
  { id := "behavioral_2", number := 2, category := .behavioral,
    question := "Do you stop taking antibiotics when you feel better, even if the course is not complete?",
    options := [⟨"No", 0⟩, ⟨"Yes", 3⟩] },
  { id := "behavioral_3", number := 3, category := .behavioral,
    question := "Do you use leftover antibiotics from previous illnesses?",
    options := [⟨"No", 0⟩, ⟨"Yes", 3⟩] },
  { id := "behavioral_4", number := 4, category := .behavioral,
    question := "Do you share your antibiotics with family members or friends?",
    options := [⟨"No", 0⟩, ⟨"Yes", 2⟩] },
  { id := "knowledge_1", number := 5, category := .knowledge,
    question := "Do you know that antibiotics only work against bacteria and not viruses?",
    options := [⟨"No", 0⟩, ⟨"Yes", 2⟩] },
  { id := "knowledge_2", number := 6, category := .knowledge,
    question := "Are you aware that it is bacteria that become resistant, not your body?",
    options := [⟨"No", 0⟩, ⟨"Yes", 1⟩] },
  { id := "knowledge_3", number := 7, category := .knowledge,
    question := "Do you know what Antimicrobial Resistance (AMR) is?",
    options := [⟨"No", 0⟩, ⟨"Yes", 1⟩] },
  { id := "environmental_1", number := 8, category := .environmental,
    question := "Do you have access to clean drinking water and proper sanitation?",
    options := [⟨"Yes", 0⟩, ⟨"No", 2⟩] },
  { id := "environmental_2", number := 9, category := .environmental,
    question := "Do you live in an area with poor waste management or environmental pollution?",
    options := [⟨"No", 0⟩, ⟨"Yes", 2⟩] },
  { id := "environmental_3", number := 10, category := .environmental,
    question := "How often do you wash your hands with clean water and soap?",
    options := [⟨"Always", 0⟩, ⟨"Sometimes", 1⟩, ⟨"Rarely", 2⟩] },
  { id := "socioeconomic_1", number := 11, category := .socioeconomic,
    question := "Do you skip doses of prescribed antibiotics due to cost?",
    options := [⟨"No", 0⟩, ⟨"Yes", 2⟩] },
  { id := "socioeconomic_2", number := 12, category := .socioeconomic,
    question := "Do you buy antibiotics from informal vendors or street sellers instead of licensed pharmacies?",
    options := [⟨"No", 0⟩, ⟨"Yes", 2⟩] }
]

/-- `CATEGORY_WEIGHTS`: behavioral 0.4, the rest 0.2 each. -/
def CATEGORY_WEIGHTS : Category → ℚ
  | .behavioral => 0.4
  | .knowledge => 0.2
  | .environmental => 0.2
  | .socioeconomic => 0.2

/-- `MAX_POINTS_PER_CATEGORY`: behavioral 11, knowledge 4, environmental 6, socioeconomic 4. -/
def MAX_POINTS_PER_CATEGORY : Category → ℕ
  | .behavioral => 11
  | .knowledge => 4
  | .environmental => 6
  | .socioeconomic => 4

/-- `RISK_LEVEL_THRESHOLDS`: the (min, max) band per risk level. -/
def RISK_LEVEL_THRESHOLDS : RiskLevel → ℕ × ℕ
  | .low => (0, 30)
  | .moderate => (31, 60)
  | .high => (61, 100)

/-- `getRiskLevel` from `shared/assessment.ts`:
`if (score <= 30) return "low"; if (score <= 60) return "moderate"; return "high";` -/
def getRiskLevel (score : ℤ) : RiskLevel :=
  if score ≤ 30 then .low
  else if score ≤ 60 then .moderate
  else .high

/-- `getQuestionById` from `shared/assessment.ts`. -/
def getQuestionById (id : String) : Option AssessmentQuestion :=
  ASSESSMENT_QUESTIONS.find? (fun q => q.id = id)

/-- `getQuestionByNumber` from `shared/assessment.ts`. -/
def getQuestionByNumber (number : ℕ) : Option AssessmentQuestion :=
  ASSESSMENT_QUESTIONS.find? (fun q => q.number = number)

/-- Exact model of JavaScript `Math.round (num / den)` for non-negative integers:
`⌊num / den + 1/2⌋ = (2 * num + den) / (2 * den)` using natural division. -/
def natRound (num den : ℕ) : ℕ :=
  (2 * num + den) / (2 * den)

/-- `natRound` agrees with the rounding rule `⌊x + 1/2⌋` (JavaScript `Math.round`)
applied to the exact rational `num / den`. -/
theorem natRound_eq_floor (num den : ℕ) (hd : den ≠ 0) :
    (natRound num den : ℤ) = ⌊(num : ℚ) / den + 1 / 2⌋ := by
  have h2d : (2 * den : ℕ) ≠ 0 := by positivity
  have hkey : (num : ℚ) / den + 1 / 2 = ((2 * num + den : ℕ) : ℚ) / ((2 * den : ℕ) : ℚ) := by
    field_simp
    ring
  rw [hkey, Rat.floor_natCast_div_natCast, natRound]
  norm_cast


/-- `calculateCategoryPercentage` from `server/scoring.ts`:
`Math.round((categoryScore / maxPoints) * 100)`, and 0 when `maxPoints` is 0.
`(categoryScore / maxPoints) * 100 = (categoryScore * 100) / maxPoints` exactly. -/
def calculateCategoryPercentage (categoryScore : ℕ) (category : Category) : ℕ :=
  let maxPoints := MAX_POINTS_PER_CATEGORY category
  if maxPoints = 0 then 0
  else natRound (categoryScore * 100) maxPoints

/-- `Record<Category, α>` with the insertion order used by every record literal in
the source: behavioral, knowledge, environmental, socioeconomic. -/
structure CategoryRecord (α : Type) where
  behavioral : α
  knowledge : α
  environmental : α
  socioeconomic : α
deriving DecidableEq, Repr

/-- Look up a field of a `CategoryRecord` by category. -/
def CategoryRecord.get {α : Type} (r : CategoryRecord α) : Category → α
  | .behavioral => r.behavioral
  | .knowledge => r.knowledge
  | .environmental => r.environmental
  | .socioeconomic => r.socioeconomic

/-- `Object.entries` of a `CategoryRecord`, in insertion order. -/
def CategoryRecord.entries {α : Type} (r : CategoryRecord α) : List (Category × α) :=
  [(.behavioral, r.behavioral), (.knowledge, r.knowledge),
   (.environmental, r.environmental), (.socioeconomic, r.socioeconomic)]

/-- `Math.max(...Object.values(categoryPercentages))`. -/
def maxPercentage (p : CategoryRecord ℕ) : ℕ :=
  max (max (max p.behavioral p.knowledge) p.environmental) p.socioeconomic

/-- `findHighestRiskCategories` from `server/scoring.ts`: empty when the maximum
percentage is 0, otherwise all categories attaining the maximum, in entry order. -/
def findHighestRiskCategories (p : CategoryRecord ℕ) : List String :=
  if maxPercentage p = 0 then []
  else ((p.entries.filter (fun e => e.2 = maxPercentage p)).map (fun e => e.1.name))

/-- `generateInterpretation` from `server/scoring.ts`. -/
def generateInterpretation (riskLevel : RiskLevel) (score : ℕ) : String :=
  match riskLevel with
  | .low => "Your AMR Risk Level is LOW (Score: " ++ toString score ++ "/100). You demonstrate good antimicrobial stewardship practices. Continue following professional medical advice and maintaining your current practices."
  | .moderate => "Your AMR Risk Level is MODERATE (Score: " ++ toString score ++ "/100). Some of your habits may increase your risk of contributing to antimicrobial resistance. Review the recommendations provided to reduce your risk."
  | .high => "Your AMR Risk Level is HIGH (Score: " ++ toString score ++ "/100). Your current practices significantly increase your risk of contributing to antimicrobial resistance. Please consult a licensed healthcare professional for guidance on improving your practices."

/-- The `categoryRecommendations` record in `generateRecommendations`
(`server/scoring.ts`), keyed by category name; an unknown key yields nothing. -/
def categoryRecommendations (category : String) : List String :=
  if category = "behavioral" then
    ["✓ Always complete the full course of antibiotics as prescribed, even if you feel better.",
     "✓ Only buy antibiotics with a valid doctor's prescription.",
     "✓ Never use leftover antibiotics from previous illnesses.",
     "✓ Do not share your antibiotics with family members or friends."]
  else if category = "knowledge" then
    ["✓ Remember: Antibiotics only work against bacteria, not viruses like colds or flu.",
     "✓ It is bacteria that become resistant, not your body.",
     "✓ Always consult a healthcare professional to determine if you need antibiotics.",
     "✓ Learn more about Antimicrobial Resistance (AMR) to make informed health decisions."]
  else if category = "environmental" then
    ["✓ Wash your hands frequently with clean water and soap.",
     "✓ Ensure access to clean drinking water and proper sanitation.",
     "✓ Practice good food hygiene to prevent infections.",
     "✓ Support community efforts to improve environmental sanitation."]
  else if category = "socioeconomic" then
    ["✓ Do not skip doses due to cost; consult a healthcare provider for affordable options.",
     "✓ Visit licensed pharmacies or clinics instead of informal vendors.",
     "✓ Seek government health programs that provide subsidized medicines.",
     "✓ Report counterfeit medicines to local health authorities."]
  else []

/-- `generateRecommendations` from `server/scoring.ts`: category-specific
recommendations for each highest-risk category (in order), then risk-level
guidance (high and moderate only), then the fixed educational disclaimer. -/
def generateRecommendations (riskLevel : RiskLevel) (highestRiskCategories : List String) : List String :=
  ((highestRiskCategories.map categoryRecommendations).flatten ++
    (match riskLevel with
     | .high =>
        ["⚠ Please consult a licensed healthcare professional before taking any antibiotics.",
         "⚠ Report any unusual symptoms to a medical professional immediately."]
     | .moderate =>
        ["→ Learn more about antimicrobial resistance to make informed health decisions.",
         "→ Share this knowledge with your family and community."]
     | .low => [])) ++
  ["📚 This assessment is for educational purposes only and is not a medical diagnosis. Please consult a healthcare professional for personalized medical advice."]

/-- `interface AssessmentAnswer` in `server/scoring.ts`. -/
structure AssessmentAnswer where
  questionId : String
  category : Category
  answerText : String
  points : ℕ
deriving DecidableEq, Repr

/-- Sum of the points of the answers in one category (the
`categoryScores[answer.category] += answer.points` loop). -/
def catSum (answers : List AssessmentAnswer) (c : Category) : ℕ :=
  (answers.map (fun a => if a.category = c then a.points else 0)).sum

/-- `interface ScoringResult` in `server/scoring.ts`.  `totalScore` is the
two-decimal weighted total, kept as an exact rational. -/
structure ScoringResult where
  totalScore : ℚ
  riskLevel : RiskLevel
  categoryScores : CategoryRecord ℕ
  categoryPercentages : CategoryRecord ℕ
  highestRiskCategories : List String
  interpretation : String
  recommendations : List String
deriving DecidableEq, Repr

/-- The weighted total, carried over the common denominator 5:
`totalScoreNum5 p / 5 = Σ percentage_c * weight_c` (see `totalScoreNum5_spec`). -/
def totalScoreNum5 (p : CategoryRecord ℕ) : ℕ :=
  2 * p.behavioral + p.knowledge + p.environmental + p.socioeconomic

/-- `totalScoreNum5 p / 5` is exactly the source's weighted total
`Σ percentage * weight` accumulated over the record entries in order. -/
theorem totalScoreNum5_spec (p : CategoryRecord ℕ) :
    (totalScoreNum5 p : ℚ) / 5 =
      ((p.entries.map (fun e => (e.2 : ℚ) * CATEGORY_WEIGHTS e.1)).sum) := by
  simp [totalScoreNum5, CategoryRecord.entries, CATEGORY_WEIGHTS]
  ring

/-- The body of `calculateRiskScore` after its length check (`server/scoring.ts`):
from the per-category point sums, compute per-category percentages, the weighted
total (exactly `totalScoreNum5 / 5`, see `totalScoreNum5_spec`), the rounded
score (`Math.round`), risk level, highest-risk categories, interpretation and
recommendations.  `totalScore` is `Math.round(total * 100) / 100`, i.e.
`natRound (totalScoreNum5 * 100) 5 / 100` carried exactly. -/
def scoreFromSums (categoryScores : CategoryRecord ℕ) : ScoringResult :=
  let categoryPercentages : CategoryRecord ℕ :=
    ⟨calculateCategoryPercentage categoryScores.behavioral .behavioral,
     calculateCategoryPercentage categoryScores.knowledge .knowledge,
     calculateCategoryPercentage categoryScores.environmental .environmental,
     calculateCategoryPercentage categoryScores.socioeconomic .socioeconomic⟩
  let num5 := totalScoreNum5 categoryPercentages
  let normalizedScore : ℕ := natRound num5 5
  let riskLevel := getRiskLevel normalizedScore
  let highestRiskCategories := findHighestRiskCategories categoryPercentages
  { totalScore := ((natRound (num5 * 100) 5 : ℕ) : ℚ) / 100
    riskLevel := riskLevel
    categoryScores := categoryScores
    categoryPercentages := categoryPercentages
    highestRiskCategories := highestRiskCategories
    interpretation := generateInterpretation riskLevel normalizedScore
    recommendations := generateRecommendations riskLevel highestRiskCategories }

/-- `calculateRiskScore` from `server/scoring.ts`.  Throws (modelled as
`.error`) unless exactly 12 answers are supplied; otherwise sums points per
category (`catSum`) and scores them (`scoreFromSums`). -/
def calculateRiskScore (answers : List AssessmentAnswer) : Except String ScoringResult :=
  if answers.length ≠ ASSESSMENT_QUESTIONS.length then
    .error ("Expected " ++ toString ASSESSMENT_QUESTIONS.length ++ " answers, received "
      ++ toString answers.length)
  else
    .ok (scoreFromSums
      ⟨catSum answers .behavioral, catSum answers .knowledge,
       catSum answers .environmental, catSum answers .socioeconomic⟩)

/-- Result shape of `validateAnswer` (`{valid, points?, category?, error?}`). -/
inductive ValidationResult where
  | ok (points : ℕ) (category : Category)
  | err (error : String)
deriving DecidableEq, Repr

/-- `validateAnswer` from `server/scoring.ts`: look the question up by id, then
the option by exact label; report the legal labels on an invalid option. -/
def validateAnswer (questionId : String) (answerText : String) : ValidationResult :=
  match ASSESSMENT_QUESTIONS.find? (fun q => q.id = questionId) with
  | none => .err "Question not found"
  | some question =>
    match question.options.find? (fun opt => opt.text = answerText) with
    | none => .err ("Invalid answer option. Valid options: "
        ++ String.intercalate ", " (question.options.map (fun o => o.text)))
    | some opt => .ok opt.points question.category

/-- Session status enum from the drizzle schema (`assessments.status`). -/
inductive SessionStatus where
  | in_progress
  | completed
  | abandoned
deriving DecidableEq, Repr

/-- A row of the `assessments` table (the fields the core logic reads). -/
structure SessionRow where
  sessionId : String
  status : SessionStatus
deriving DecidableEq, Repr

/-- A row of the `assessmentResponses` table.  The schema places no uniqueness
constraint on (sessionId, questionId). -/
structure ResponseRow where
  sessionId : String
  questionId : String
  category : Category
  answerText : String
  points : ℕ
deriving DecidableEq, Repr

/-- A row of the `assessmentResults` table; `sessionId` carries a UNIQUE
constraint in the schema.  The stored columns are exactly the `ScoringResult`
fields, kept here as one value. -/
structure ResultRow where
  sessionId : String
  result : ScoringResult
deriving DecidableEq, Repr

/-- The durable store: the three tables the assessment path touches. -/
structure DbState where
  sessions : List SessionRow
  responses : List ResponseRow
  results : List ResultRow
deriving DecidableEq, Repr

/-- A storage-layer failure (a violated uniqueness constraint). -/
inductive DbError where
  | duplicateKey
deriving DecidableEq, Repr

/-- `createAssessmentSession` (`server/db.ts`): insert a new session in
`in_progress`; `assessments.sessionId` is UNIQUE. -/
def createAssessmentSession (st : DbState) (sessionId : String) : Except DbError DbState :=
  if st.sessions.any (fun s => s.sessionId = sessionId) then .error .duplicateKey
  else .ok { st with sessions := st.sessions ++ [⟨sessionId, .in_progress⟩] }

/-- `getAssessmentSession` (`server/db.ts`): select by sessionId, limit 1. -/
def getAssessmentSession (st : DbState) (sessionId : String) : Option SessionRow :=
  st.sessions.find? (fun s => s.sessionId = sessionId)

/-- `saveAssessmentResponse` (`server/db.ts`): a plain insert — the schema has
no uniqueness constraint on (sessionId, questionId), so duplicates accumulate. -/
def saveAssessmentResponse (st : DbState) (row : ResponseRow) : DbState :=
  { st with responses := st.responses ++ [row] }

/-- `getAssessmentResponses` (`server/db.ts`): all rows of the session. -/
def getAssessmentResponses (st : DbState) (sessionId : String) : List ResponseRow :=
  st.responses.filter (fun r => r.sessionId = sessionId)

/-- `saveAssessmentResult` (`server/db.ts`): insert into `assessmentResults`;
its `sessionId` column is UNIQUE, so a second insert for the same session fails
with a duplicate-key storage error. -/
def saveAssessmentResult (st : DbState) (row : ResultRow) : Except DbError DbState :=
  if st.results.any (fun r => r.sessionId = row.sessionId) then .error .duplicateKey
  else .ok { st with results := st.results ++ [row] }

/-- `getAssessmentResult` (`server/db.ts`). -/
def getAssessmentResult (st : DbState) (sessionId : String) : Option ResultRow :=
  st.results.find? (fun r => r.sessionId = sessionId)

/-- `completeAssessment` (`server/db.ts`): set the session status to completed. -/
def completeAssessment (st : DbState) (sessionId : String) : DbState :=
  { st with
    sessions := st.sessions.map (fun s =>
      if s.sessionId = sessionId then { s with status := .completed } else s) }

/-- The failures the router operations can surface (each carries the
distinguishing payload of the thrown `Error`). -/
inductive ApiError where
  | sessionNotFound
  | assessmentAlreadyCompleted
  | questionNotFound
  | validationFailed (error : String)
  | incompleteAssessment (expected actual : ℕ)
  | internalError (message : String)
  | storageError (e : DbError)
deriving DecidableEq, Repr

/-- The `createSession` router mutation, with the generated nanoid passed in as
`freshId` (id generation and IP hashing are outside the core). -/
def createSession (st : DbState) (freshId : String) : Except ApiError DbState :=
  match createAssessmentSession st freshId with
  | .error e => .error (.storageError e)
  | .ok st' => .ok st'

/-- The `submitResponse` router mutation (`assessmentRouter`): session must
exist and be `in_progress` (else "Assessment already completed"); the answer
must validate; the response row is inserted (never upserted); returns the new
row count of the session and the total question count. -/
def submitResponse (st : DbState) (sessionId questionId answerText : String) :
    Except ApiError (DbState × ℕ × ℕ) :=
  match getAssessmentSession st sessionId with
  | none => .error .sessionNotFound
  | some session =>
    if session.status ≠ .in_progress then .error .assessmentAlreadyCompleted
    else
      match validateAnswer questionId answerText with
      | .err e => .error (.validationFailed e)
      | .ok points category =>
        let st' := saveAssessmentResponse st ⟨sessionId, questionId, category, answerText, points⟩
        .ok (st', (getAssessmentResponses st' sessionId).length, ASSESSMENT_QUESTIONS.length)

/-- The `submitAssessment` router mutation (finalize): session must exist; the
session's response ROW COUNT must equal 12 (distinctness of question ids is not
checked, and neither is the session status); then the score is computed, the
result row inserted (UNIQUE sessionId), and the session marked completed. -/
def submitAssessment (st : DbState) (sessionId : String) :
    Except ApiError (DbState × ScoringResult) :=
  match getAssessmentSession st sessionId with
  | none => .error .sessionNotFound
  | some _ =>
    let responses := getAssessmentResponses st sessionId
    if responses.length ≠ ASSESSMENT_QUESTIONS.length then
      .error (.incompleteAssessment ASSESSMENT_QUESTIONS.length responses.length)
    else
      let answers := responses.map
        (fun r => AssessmentAnswer.mk r.questionId r.category r.answerText r.points)
      match calculateRiskScore answers with
      | .error msg => .error (.internalError msg)
      | .ok result =>
        match saveAssessmentResult st ⟨sessionId, result⟩ with
        | .error e => .error (.storageError e)
        | .ok st' => .ok (completeAssessment st' sessionId, result)

/-- The client-visible shape of an answer option: label text only. -/
structure ClientOption where
  text : String
deriving DecidableEq, Repr

/-- The value returned by the `getQuestion` router query. -/
structure ClientQuestion where
  id : String
  number : ℕ
  category : Category
  question : String
  options : List ClientOption
  totalQuestions : ℕ
deriving DecidableEq, Repr

/-- The per-question value returned by the `getQuestions` router query. -/
structure ClientQuestionSummary where
  id : String
  number : ℕ
  category : Category
  question : String
  options : List ClientOption
deriving DecidableEq, Repr

/-- The `getQuestion` router query, abstracted over the catalog value the
module reads (`ASSESSMENT_QUESTIONS` in the source): verify the session, find
the question by number, and return it with options mapped to labels only
("Don't expose points to frontend"). -/
def getQuestionImpl (catalog : List AssessmentQuestion) (st : DbState)
    (sessionId : String) (questionNumber : ℕ) : Except ApiError ClientQuestion :=
  match getAssessmentSession st sessionId with
  | none => .error .sessionNotFound
  | some _ =>
    match catalog.find? (fun q => q.number = questionNumber) with
    | none => .error .questionNotFound
    | some question =>
      .ok { id := question.id, number := question.number, category := question.category,
            question := question.question,
            options := question.options.map (fun opt => ⟨opt.text⟩),
            totalQuestions := catalog.length }

/-- `getQuestion` on the module's actual catalog. -/
def getQuestion (st : DbState) (sessionId : String) (questionNumber : ℕ) :
    Except ApiError ClientQuestion :=
  getQuestionImpl ASSESSMENT_QUESTIONS st sessionId questionNumber

/-- The `getQuestions` router query, abstracted over the catalog: all
questions with options mapped to labels only, plus the total count. -/
def getQuestionsImpl (catalog : List AssessmentQuestion) :
    List ClientQuestionSummary × ℕ :=
  (catalog.map (fun q =>
      { id := q.id, number := q.number, category := q.category, question := q.question,
        options := q.options.map (fun opt => ⟨opt.text⟩) }),
   catalog.length)

/-- `getQuestions` on the module's actual catalog. -/
def getQuestions : List ClientQuestionSummary × ℕ :=
  getQuestionsImpl ASSESSMENT_QUESTIONS

/-- The point-erased view of a catalog question: everything a client may learn
from the question-retrieval operations. -/
def erasePoints (q : AssessmentQuestion) : String × ℕ × Category × String × List String :=
  (q.id, q.number, q.category, q.question, q.options.map (fun o => o.text))

/-! ## Helper lemmas -/

theorem Category.name_inj : ∀ c₁ c₂ : Category, c₁.name = c₂.name → c₁ = c₂ := by
  intro c₁ c₂
  cases c₁ <;> cases c₂ <;> simp [Category.name]

theorem entry_mem (p : CategoryRecord ℕ) (c : Category) : (c, p.get c) ∈ p.entries := by
  cases c <;> simp [CategoryRecord.entries, CategoryRecord.get]

theorem entries_val (p : CategoryRecord ℕ) {c : Category} {v : ℕ}
    (h : (c, v) ∈ p.entries) : v = p.get c := by
  simp [CategoryRecord.entries, Prod.ext_iff] at h
  rcases h with ⟨h1, h2⟩ | ⟨h1, h2⟩ | ⟨h1, h2⟩ | ⟨h1, h2⟩ <;>
    subst h1 <;> simp [CategoryRecord.get, h2]

theorem maxPercentage_attained (p : CategoryRecord ℕ) :
    ∃ c : Category, p.get c = maxPercentage p := by
  unfold maxPercentage
  rcases max_choice (max (max p.behavioral p.knowledge) p.environmental) p.socioeconomic with h | h
  · rcases max_choice (max p.behavioral p.knowledge) p.environmental with h' | h'
    · rcases max_choice p.behavioral p.knowledge with h'' | h''
      · exact ⟨.behavioral, by show p.behavioral = _; rw [h, h', h'']⟩
      · exact ⟨.knowledge, by show p.knowledge = _; rw [h, h', h'']⟩
    · exact ⟨.environmental, by show p.environmental = _; rw [h, h']⟩
  · exact ⟨.socioeconomic, by show p.socioeconomic = _; rw [h]⟩

/-! ## Claim theorems -/

/-- Claim C10: `getRiskLevel` is total over all integers: every integer score
maps to one of the three levels, every score at most 30 (negatives included)
maps to `low`, and every score above 60 (scores above 100 included) maps to
`high`. -/
theorem C10_getRiskLevel_total (score : ℤ) :
    (getRiskLevel score = .low ∨ getRiskLevel score = .moderate ∨ getRiskLevel score = .high)
    ∧ (score ≤ 30 ↔ getRiskLevel score = .low)
    ∧ (60 < score ↔ getRiskLevel score = .high) := by
  unfold getRiskLevel
  refine ⟨?_, ?_, ?_⟩ <;> split_ifs with h1 h2 <;> simp_all <;> omega

/-- Claim C6: on the integer range [0, 100] the risk bands partition exactly:
`low` iff 0-30, `moderate` iff 31-60, `high` iff 61-100 — so every score in the
range maps to exactly one level, with no gaps and no overlaps. -/
theorem C6_risk_bands_partition (score : ℤ) (h0 : 0 ≤ score) (h100 : score ≤ 100) :
    (getRiskLevel score = .low ↔ 0 ≤ score ∧ score ≤ 30)
    ∧ (getRiskLevel score = .moderate ↔ 31 ≤ score ∧ score ≤ 60)
    ∧ (getRiskLevel score = .high ↔ 61 ≤ score ∧ score ≤ 100) := by
  unfold getRiskLevel
  refine ⟨?_, ?_, ?_⟩ <;> split_ifs with h1 h2 <;> simp_all <;> omega

/-- Witness for C6 at the concrete score 45. -/
theorem C6_risk_bands_partition_witness :
    (getRiskLevel 45 = .low ↔ 0 ≤ (45 : ℤ) ∧ (45 : ℤ) ≤ 30)
    ∧ (getRiskLevel 45 = .moderate ↔ 31 ≤ (45 : ℤ) ∧ (45 : ℤ) ≤ 60)
    ∧ (getRiskLevel 45 = .high ↔ 61 ≤ (45 : ℤ) ∧ (45 : ℤ) ≤ 100) :=
  C6_risk_bands_partition 45 (by decide) (by decide)

/-- Claim C5: with `m` the maximum category percentage, the highest-risk list is
empty iff `m = 0`; a category's name is listed iff its percentage equals `m`
(and `m ≠ 0`); and the list is always in catalog category order (a sublist of
behavioral, knowledge, environmental, socioeconomic) — so two tied categories
appear as exactly those two, in catalog order. -/
theorem C5_highest_risk_selection (p : CategoryRecord ℕ) :
    (findHighestRiskCategories p = [] ↔ maxPercentage p = 0)
    ∧ (∀ c : Category, c.name ∈ findHighestRiskCategories p ↔
        (p.get c = maxPercentage p ∧ maxPercentage p ≠ 0))
    ∧ (findHighestRiskCategories p).Sublist
        ["behavioral", "knowledge", "environmental", "socioeconomic"] := by
  by_cases hmax : maxPercentage p = 0
  · exact ⟨by simp [findHighestRiskCategories, hmax],
      fun c => by simp [findHighestRiskCategories, hmax],
      by simp [findHighestRiskCategories, hmax]⟩
  · refine ⟨?_, ?_, ?_⟩
    · constructor
      · intro hempty
        obtain ⟨c, hc⟩ := maxPercentage_attained p
        have hmem : c.name ∈ findHighestRiskCategories p := by
          unfold findHighestRiskCategories
          rw [if_neg hmax]
          exact List.mem_map_of_mem _ (List.mem_filter.mpr ⟨entry_mem p c, by simp [hc]⟩)
        rw [hempty] at hmem
        exact absurd hmem (List.not_mem_nil _)
      · intro h0
        exact absurd h0 hmax
    · intro c
      unfold findHighestRiskCategories
      rw [if_neg hmax]
      simp only [List.mem_map, List.mem_filter]
      constructor
      · rintro ⟨⟨c', v⟩, ⟨hmem, hv⟩, hname⟩
        have hcc : c' = c := Category.name_inj _ _ hname
        subst hcc
        have hval : v = p.get c' := entries_val p hmem
        subst hval
        simp only [decide_eq_true_eq] at hv
        exact ⟨hv, hmax⟩
      · rintro ⟨hget, -⟩
        exact ⟨(c, p.get c), ⟨entry_mem p c, by simp [hget]⟩, rfl⟩
    · unfold findHighestRiskCategories
      rw [if_neg hmax]
      have h1 : ((p.entries.filter (fun e => e.2 = maxPercentage p)).map
          (fun e => e.1.name)).Sublist (p.entries.map (fun e => e.1.name)) :=
        (List.filter_sublist _).map _
      simpa [CategoryRecord.entries, Category.name] using h1

theorem find?_key_eq {α β : Type} [DecidableEq β] (f : α → β) (k : β) :
    ∀ (l : List α), (l.map f).Nodup → ∀ a ∈ l, f a = k →
      l.find? (fun x => f x = k) = some a := by
  intro l
  induction l with
  | nil => intro _ a ha; exact absurd ha (List.not_mem_nil a)
  | cons hd tl ih =>
    intro hnd a ha hk
    rcases List.mem_cons.mp ha with rfl | hmem
    · exact List.find?_cons_of_pos tl (by simp [hk])
    · have hne : f hd ≠ k := by
        intro hEq
        have : f a ∈ tl.map f := List.mem_map_of_mem f hmem
        rw [hk, ← hEq] at this
        exact (List.nodup_cons.mp (by simpa using hnd)).1 this
      rw [List.find?_cons_of_neg tl (by simp [hne])]
      exact ih (List.nodup_cons.mp (by simpa using hnd)).2 a hmem hk

theorem assessment_ids_nodup : (ASSESSMENT_QUESTIONS.map (fun q => q.id)).Nodup := by decide

theorem assessment_option_texts_nodup :
    ∀ q ∈ ASSESSMENT_QUESTIONS, (q.options.map (fun o => o.text)).Nodup := by decide

/-- Claim C8: `validateAnswer` fails with the unknown-question error when no
catalog question carries the identifier; fails with the invalid-option error
enumerating the question's full legal label set when the question exists but no
option label matches exactly; and succeeds with exactly the matching option's
point value and the question's category otherwise.  (It is a pure function, so
there are no side effects.) -/
theorem C8_validateAnswer_contract (questionId answerText : String) :
    ((∀ q ∈ ASSESSMENT_QUESTIONS, q.id ≠ questionId) →
        validateAnswer questionId answerText = .err "Question not found")
    ∧ (∀ q ∈ ASSESSMENT_QUESTIONS, q.id = questionId →
        ((∀ opt ∈ q.options, opt.text ≠ answerText) →
            validateAnswer questionId answerText =
              .err ("Invalid answer option. Valid options: "
                ++ String.intercalate ", " (q.options.map (fun o => o.text))))
        ∧ (∀ opt ∈ q.options, opt.text = answerText →
            validateAnswer questionId answerText = .ok opt.points q.category)) := by
  constructor
  · intro habs
    have hfind : ASSESSMENT_QUESTIONS.find? (fun q => q.id = questionId) = none := by
      rw [List.find?_eq_none]
      intro q hq
      simp [habs q hq]
    rw [validateAnswer, hfind]
  · intro q hq hid
    have hfind : ASSESSMENT_QUESTIONS.find? (fun x => x.id = questionId) = some q :=
      find?_key_eq (fun x => x.id) questionId ASSESSMENT_QUESTIONS assessment_ids_nodup q hq hid
    constructor
    · intro habs
      have hopt : q.options.find? (fun opt => opt.text = answerText) = none := by
        rw [List.find?_eq_none]
        intro o ho
        simp [habs o ho]
      simp only [validateAnswer, hfind, hopt]
    · intro opt hopt htext
      have hfound : q.options.find? (fun o => o.text = answerText) = some opt :=
        find?_key_eq (fun o => o.text) answerText q.options
          (assessment_option_texts_nodup q hq) opt hopt htext
      simp only [validateAnswer, hfind, hfound]

/-- Witness for C8: a successful lookup, an unknown question, and an invalid
option with the legal labels enumerated, each via `C8_validateAnswer_contract`. -/
theorem C8_validateAnswer_contract_witness :
    validateAnswer "behavioral_2" "Yes" = .ok 3 .behavioral
    ∧ validateAnswer "no_such_question" "Yes" = .err "Question not found"
    ∧ validateAnswer "behavioral_1" "Perhaps" =
        .err "Invalid answer option. Valid options: Never, Sometimes, Often" := by
  refine ⟨?_, ?_, ?_⟩
  · exact ((C8_validateAnswer_contract "behavioral_2" "Yes").2
      { id := "behavioral_2", number := 2, category := .behavioral,
        question := "Do you stop taking antibiotics when you feel better, even if the course is not complete?",
        options := [⟨"No", 0⟩, ⟨"Yes", 3⟩] }
      (by decide) (by decide)).2 ⟨"Yes", 3⟩ (by decide) (by decide)
  · exact (C8_validateAnswer_contract "no_such_question" "Yes").1 (by decide)
  · have h := ((C8_validateAnswer_contract "behavioral_1" "Perhaps").2
      { id := "behavioral_1", number := 1, category := .behavioral,
        question := "Do you buy antibiotics without a doctor's prescription?",
        options := [⟨"Never", 0⟩, ⟨"Sometimes", 2⟩, ⟨"Often", 3⟩] }
      (by decide) (by decide)).1 (by decide)
    simpa using h

theorem calculateRiskScore_ok (answers : List AssessmentAnswer) (h : answers.length = 12) :
    calculateRiskScore answers = .ok (scoreFromSums
      ⟨catSum answers .behavioral, catSum answers .knowledge,
       catSum answers .environmental, catSum answers .socioeconomic⟩) := by
  have hcond : ¬(answers.length ≠ ASSESSMENT_QUESTIONS.length) := by
    simp [h, ASSESSMENT_QUESTIONS]
  rw [calculateRiskScore, if_neg hcond]

set_option maxRecDepth 40000 in
/-- Claim C1: any 12 answers whose per-category point sums are behavioral 8,
knowledge 3, environmental 4, socioeconomic 2 score to percentages 73/75/67/50,
a weighted total of 67.6 (= 338/5) that rounds to 68, risk level `high`, and
highest-risk category set exactly `knowledge`. -/
theorem C1_example_scenario (answers : List AssessmentAnswer)
    (hlen : answers.length = 12)
    (hb : catSum answers .behavioral = 8) (hk : catSum answers .knowledge = 3)
    (he : catSum answers .environmental = 4) (hs : catSum answers .socioeconomic = 2) :
    ∃ r : ScoringResult, calculateRiskScore answers = .ok r
      ∧ r.categoryScores = ⟨8, 3, 4, 2⟩
      ∧ r.categoryPercentages = ⟨73, 75, 67, 50⟩
      ∧ r.totalScore = 338 / 5
      ∧ r.riskLevel = .high
      ∧ r.interpretation = generateInterpretation .high 68
      ∧ r.highestRiskCategories = ["knowledge"] := by
  refine ⟨scoreFromSums ⟨8, 3, 4, 2⟩, ?_, ?_, ?_, ?_, ?_, ?_, ?_⟩
  · rw [calculateRiskScore_ok answers hlen, hb, hk, he, hs]
  · rfl
  · decide
  · show ((natRound (totalScoreNum5 ⟨73, 75, 67, 50⟩ * 100) 5 : ℕ) : ℚ) / 100 = 338 / 5
    rw [(by decide : natRound (totalScoreNum5 ⟨73, 75, 67, 50⟩ * 100) 5 = 6760)]
    norm_num
  · decide
  · decide
  · decide

/-- Concrete catalog-drawn answer set realizing the C1 sums 8/3/4/2. -/
def c1Answers : List AssessmentAnswer := [
  ⟨"behavioral_1", .behavioral, "Never", 0⟩, ⟨"behavioral_2", .behavioral, "Yes", 3⟩,
  ⟨"behavioral_3", .behavioral, "Yes", 3⟩, ⟨"behavioral_4", .behavioral, "Yes", 2⟩,
  ⟨"knowledge_1", .knowledge, "Yes", 2⟩, ⟨"knowledge_2", .knowledge, "Yes", 1⟩,
  ⟨"knowledge_3", .knowledge, "No", 0⟩,
  ⟨"environmental_1", .environmental, "No", 2⟩, ⟨"environmental_2", .environmental, "Yes", 2⟩,
  ⟨"environmental_3", .environmental, "Always", 0⟩,
  ⟨"socioeconomic_1", .socioeconomic, "Yes", 2⟩, ⟨"socioeconomic_2", .socioeconomic, "No", 0⟩]

/-- Witness for C1 at the concrete answer set `c1Answers`. -/
theorem C1_example_scenario_witness :
    ∃ r : ScoringResult, calculateRiskScore c1Answers = .ok r
      ∧ r.categoryScores = ⟨8, 3, 4, 2⟩
      ∧ r.categoryPercentages = ⟨73, 75, 67, 50⟩
      ∧ r.totalScore = 338 / 5
      ∧ r.riskLevel = .high
      ∧ r.interpretation = generateInterpretation .high 68
      ∧ r.highestRiskCategories = ["knowledge"] :=
  C1_example_scenario c1Answers (by decide) (by decide) (by decide) (by decide) (by decide)

/-- Claim C7: scoring is a pure, deterministic function of the multiset of
(category, points) pairs: any permutation of the answer list yields the
identical result — total score, risk level, category scores and percentages,
highest-risk set, interpretation and recommendation list included. -/
theorem C7_scoring_deterministic_perm (l l' : List AssessmentAnswer)
    (hperm : l.Perm l') :
    calculateRiskScore l = calculateRiskScore l' := by
  have hlen : l.length = l'.length := hperm.length_eq
  have hsum : ∀ c, catSum l c = catSum l' c := by
    intro c
    exact List.Perm.sum_eq (hperm.map _)
  simp only [calculateRiskScore, hlen, hsum]

/-- Witness for C7: the concrete `c1Answers` list against its reversal. -/
theorem C7_scoring_deterministic_perm_witness :
    calculateRiskScore c1Answers = calculateRiskScore c1Answers.reverse :=
  C7_scoring_deterministic_perm c1Answers c1Answers.reverse
    (List.reverse_perm c1Answers).symm

/-- Whether a router operation succeeded. -/
def exceptOk {ε α : Type} : Except ε α → Bool
  | .ok _ => true
  | .error _ => false

instance {ε α : Type} [DecidableEq ε] [DecidableEq α] : DecidableEq (Except ε α) := fun x y =>
  match x, y with
  | .ok a, .ok b =>
    if h : a = b then isTrue (by rw [h]) else isFalse (fun hEq => by cases hEq; exact h rfl)
  | .error a, .error b =>
    if h : a = b then isTrue (by rw [h]) else isFalse (fun hEq => by cases hEq; exact h rfl)
  | .ok _, .error _ => isFalse (fun hEq => by cases hEq)
  | .error _, .ok _ => isFalse (fun hEq => by cases hEq)

/-- The scoring result carried by a successful finalize, if any. -/
def resultPart (e : Except ApiError (DbState × ScoringResult)) : Option ScoringResult :=
  match e with
  | .ok p => some p.2
  | .error _ => none

/-- A full, one-row-per-question response set for a session (all first options). -/
def fullResponses (sid : String) : List ResponseRow := [
  ⟨sid, "behavioral_1", .behavioral, "Never", 0⟩,
  ⟨sid, "behavioral_2", .behavioral, "No", 0⟩,
  ⟨sid, "behavioral_3", .behavioral, "No", 0⟩,
  ⟨sid, "behavioral_4", .behavioral, "No", 0⟩,
  ⟨sid, "knowledge_1", .knowledge, "No", 0⟩,
  ⟨sid, "knowledge_2", .knowledge, "No", 0⟩,
  ⟨sid, "knowledge_3", .knowledge, "No", 0⟩,
  ⟨sid, "environmental_1", .environmental, "Yes", 0⟩,
  ⟨sid, "environmental_2", .environmental, "No", 0⟩,
  ⟨sid, "environmental_3", .environmental, "Always", 0⟩,
  ⟨sid, "socioeconomic_1", .socioeconomic, "No", 0⟩,
  ⟨sid, "socioeconomic_2", .socioeconomic, "No", 0⟩]

/-- A store holding one already-completed session with its full response set and
its persisted result row (the result value itself is irrelevant to the claim). -/
def stC2 : DbState :=
  { sessions := [⟨"s1", .completed⟩],
    responses := fullResponses "s1",
    results := [⟨"s1", ⟨0, .low, ⟨0, 0, 0, 0⟩, ⟨0, 0, 0, 0⟩, [], "", []⟩⟩] }

/-- Counterexample to C2 as stated: on a store whose session `s1` is already
`completed` (with its 12 responses and persisted result), a second finalize
does not fail with the already-finalized error — it runs the scoring again and
fails only at result persistence with a duplicate-key storage error. -/
theorem C2_counterexample :
    (getAssessmentSession stC2 "s1").map (fun s => s.status) = some .completed
    ∧ submitAssessment stC2 "s1" ≠ .error .assessmentAlreadyCompleted
    ∧ submitAssessment stC2 "s1" = .error (.storageError .duplicateKey) := by
  decide

/-- Amended C2: `submitAssessment` never checks the session status.  For every
store whose session is completed with 12 recorded response rows and an existing
result row, re-invoking finalize recomputes the score and fails only when
re-persisting the result (the UNIQUE sessionId on the results table), surfaced
as a duplicate-key storage error — never as `SessionAlreadyFinalized`. -/
theorem C2_amended_finalize_unguarded (st : DbState) (sessionId : String) (session : SessionRow)
    (hfind : getAssessmentSession st sessionId = some session)
    (hstatus : session.status = .completed)
    (hcount : (getAssessmentResponses st sessionId).length = 12)
    (hdup : st.results.any (fun r => r.sessionId = sessionId) = true) :
    submitAssessment st sessionId = .error (.storageError .duplicateKey)
    ∧ submitAssessment st sessionId ≠ .error .assessmentAlreadyCompleted := by
  have hresp : ((getAssessmentResponses st sessionId).map
      (fun r => AssessmentAnswer.mk r.questionId r.category r.answerText r.points)).length = 12 := by
    simpa using hcount
  have hcalc := calculateRiskScore_ok _ hresp
  have hmain : submitAssessment st sessionId = .error (.storageError .duplicateKey) := by
    simp [submitAssessment, hfind, hcalc, saveAssessmentResult, hdup, hcount,
      ASSESSMENT_QUESTIONS]
  exact ⟨hmain, by simp [hmain]⟩

/-- Witness for the amended C2 at the concrete store `stC2`. -/
theorem C2_amended_finalize_unguarded_witness :
    submitAssessment stC2 "s1" = .error (.storageError .duplicateKey)
    ∧ submitAssessment stC2 "s1" ≠ .error .assessmentAlreadyCompleted :=
  C2_amended_finalize_unguarded stC2 "s1" ⟨"s1", .completed⟩
    (by decide) (by decide) (by decide) (by decide)

/-- Twelve response rows for `s1` in which `behavioral_1` is answered twice and
`behavioral_2` never — the distinct-question set is NOT the catalog set. -/
def c3Responses : List ResponseRow := [
  ⟨"s1", "behavioral_1", .behavioral, "Never", 0⟩,
  ⟨"s1", "behavioral_1", .behavioral, "Often", 3⟩,
  ⟨"s1", "behavioral_3", .behavioral, "No", 0⟩,
  ⟨"s1", "behavioral_4", .behavioral, "No", 0⟩,
  ⟨"s1", "knowledge_1", .knowledge, "No", 0⟩,
  ⟨"s1", "knowledge_2", .knowledge, "No", 0⟩,
  ⟨"s1", "knowledge_3", .knowledge, "No", 0⟩,
  ⟨"s1", "environmental_1", .environmental, "Yes", 0⟩,
  ⟨"s1", "environmental_2", .environmental, "No", 0⟩,
  ⟨"s1", "environmental_3", .environmental, "Always", 0⟩,
  ⟨"s1", "socioeconomic_1", .socioeconomic, "No", 0⟩,
  ⟨"s1", "socioeconomic_2", .socioeconomic, "No", 0⟩]

/-- A store with an in-progress session holding the duplicated response set. -/
def stC3 : DbState :=
  { sessions := [⟨"s1", .in_progress⟩], responses := c3Responses, results := [] }

/-- Counterexample to C3 as stated: the catalog contains `behavioral_2`, the
session's responses never answer it (while holding 12 rows thanks to a
duplicate of `behavioral_1`), yet finalize succeeds — the code only counts
rows, so it silently accepts duplicated/missing question data. -/
theorem C3_counterexample :
    "behavioral_2" ∈ ASSESSMENT_QUESTIONS.map (fun q => q.id)
    ∧ "behavioral_2" ∉ (getAssessmentResponses stC3 "s1").map (fun r => r.questionId)
    ∧ (getAssessmentResponses stC3 "s1").length = 12
    ∧ exceptOk (submitAssessment stC3 "s1") = true := by
  decide

/-- Amended C3: finalize gates only on the response ROW COUNT: with a session
present and no persisted result, a row count other than 12 fails with
`IncompleteAssessment` reporting expected (12) versus actual count, and a row
count of exactly 12 succeeds — regardless of whether the 12 rows cover the 12
distinct catalog questions. -/
theorem C3_amended_row_count_gate (st : DbState) (sessionId : String) (session : SessionRow)
    (hfind : getAssessmentSession st sessionId = some session)
    (hnores : st.results.any (fun r => r.sessionId = sessionId) = false) :
    ((getAssessmentResponses st sessionId).length ≠ 12 →
      submitAssessment st sessionId =
        .error (.incompleteAssessment 12 (getAssessmentResponses st sessionId).length))
    ∧ ((getAssessmentResponses st sessionId).length = 12 →
      exceptOk (submitAssessment st sessionId) = true) := by
  constructor
  · intro hne
    simp [submitAssessment, hfind, ASSESSMENT_QUESTIONS, hne]
  · intro heq
    have hresp : ((getAssessmentResponses st sessionId).map
        (fun r => AssessmentAnswer.mk r.questionId r.category r.answerText r.points)).length = 12 := by
      simpa using heq
    have hcalc := calculateRiskScore_ok _ hresp
    simp [submitAssessment, hfind, hcalc, saveAssessmentResult, hnores, heq,
      ASSESSMENT_QUESTIONS, exceptOk]

/-- A store whose in-progress session has answered only 3 of the 12 questions. -/
def stIncomplete : DbState :=
  { sessions := [⟨"s1", .in_progress⟩],
    responses := (fullResponses "s1").take 3,
    results := [] }

/-- Witness for the amended C3: the 12-row branch at `stC3` and the
incomplete-count branch at `stIncomplete`. -/
theorem C3_amended_row_count_gate_witness :
    exceptOk (submitAssessment stC3 "s1") = true
    ∧ submitAssessment stIncomplete "s1" =
        .error (.incompleteAssessment 12 (getAssessmentResponses stIncomplete "s1").length) := by
  constructor
  · exact (C3_amended_row_count_gate stC3 "s1" ⟨"s1", .in_progress⟩
      (by decide) (by decide)).2 (by decide)
  · exact (C3_amended_row_count_gate stIncomplete "s1" ⟨"s1", .in_progress⟩
      (by decide) (by decide)).1 (by decide)

/-- Run a list of (questionId, answerText) submissions through `submitResponse`,
threading the store, stopping at the first failure. -/
def runSubmits (st : DbState) (sessionId : String) :
    List (String × String) → Except ApiError DbState
  | [] => .ok st
  | (qid, txt) :: rest =>
    match submitResponse st sessionId qid txt with
    | .error e => .error e
    | .ok (st', _, _) => runSubmits st' sessionId rest

/-- Twelve individually valid submissions in which `behavioral_1` is submitted
four times with its 3-point option (the storage layer never rejects the
duplicates). -/
def c4Submissions : List (String × String) := [
  ("behavioral_1", "Often"), ("behavioral_1", "Often"),
  ("behavioral_1", "Often"), ("behavioral_1", "Often"),
  ("knowledge_1", "No"), ("knowledge_2", "No"), ("knowledge_3", "No"),
  ("environmental_1", "Yes"), ("environmental_2", "No"), ("environmental_3", "Always"),
  ("socioeconomic_1", "No"), ("socioeconomic_2", "No")]

/-- The outcome of the public-operation trace: create a session, submit the 12
responses of `c4Submissions`, then finalize. -/
def c4FinalOutcome : Except ApiError (DbState × ScoringResult) :=
  match createSession ⟨[], [], []⟩ "s1" with
  | .error e => .error e
  | .ok st₀ =>
    match runSubmits st₀ "s1" c4Submissions with
    | .error e => .error e
    | .ok st₁ => submitAssessment st₁ "s1"

/-- Counterexample to C4 as stated: a session reached purely through
createSession / submitResponse / submitAssessment whose persisted result has a
behavioral point sum of 12 — above the category maximum 11 — and a behavioral
percentage of 109, outside [0, 100]. -/
theorem C4_counterexample :
    ((resultPart c4FinalOutcome).map (fun r => r.categoryScores.behavioral)) = some 12
    ∧ ((resultPart c4FinalOutcome).map (fun r => r.categoryPercentages.behavioral)) = some 109
    ∧ MAX_POINTS_PER_CATEGORY .behavioral = 11 := by
  decide

theorem le_foldr_max (l : List ℕ) (x : ℕ) (h : x ∈ l) : x ≤ l.foldr max 0 := by
  induction l with
  | nil => cases h
  | cons hd tl ih =>
    rcases List.mem_cons.mp h with rfl | hm
    · exact le_max_left _ _
    · exact le_trans (ih hm) (le_max_right _ _)

/-- The largest point value among a question's options. -/
def maxOptionPoints (q : AssessmentQuestion) : ℕ :=
  (q.options.map (fun o => o.points)).foldr max 0

/-- The largest point value the question with a given id can contribute to
category `c` (0 when the id is unknown or belongs to another category). -/
def maxPointsOfId (c : Category) (qid : String) : ℕ :=
  match getQuestionById qid with
  | some q => if q.category = c then maxOptionPoints q else 0
  | none => 0

theorem valid_answer_le_maxPointsOfId (c : Category) (a : AssessmentAnswer)
    (hv : validateAnswer a.questionId a.answerText = .ok a.points a.category) :
    (if a.category = c then a.points else 0) ≤ maxPointsOfId c a.questionId := by
  unfold validateAnswer at hv
  cases hfq : ASSESSMENT_QUESTIONS.find? (fun q => q.id = a.questionId) with
  | none => simp [hfq] at hv
  | some q =>
    simp only [hfq] at hv
    cases hfo : q.options.find? (fun opt => opt.text = a.answerText) with
    | none => simp [hfo] at hv
    | some opt =>
      simp only [hfo, ValidationResult.ok.injEq] at hv
      obtain ⟨hp, hc⟩ := hv
      by_cases hcat : a.category = c
      · rw [if_pos hcat]
        have hqc : q.category = c := by rw [hc, hcat]
        simp only [maxPointsOfId, getQuestionById, hfq]
        rw [if_pos hqc, ← hp]
        exact le_foldr_max _ _
          (List.mem_map_of_mem _ (List.mem_of_find?_eq_some hfo))
      · rw [if_neg hcat]
        exact Nat.zero_le _

theorem sum_map_le_of_nodup_subset (l m : List String) (f : String → ℕ)
    (hl : l.Nodup) (hm : m.Nodup) (hsub : ∀ x ∈ l, x ∈ m) :
    (l.map f).sum ≤ (m.map f).sum := by
  rw [← List.sum_toFinset f hl, ← List.sum_toFinset f hm]
  exact Finset.sum_le_sum_of_subset (fun x hx =>
    List.mem_toFinset.mpr (hsub x (List.mem_toFinset.mp hx)))

theorem catSum_le_max (answers : List AssessmentAnswer)
    (hvalid : ∀ a ∈ answers, validateAnswer a.questionId a.answerText = .ok a.points a.category)
    (hnodup : (answers.map (fun a => a.questionId)).Nodup) (c : Category) :
    catSum answers c ≤ MAX_POINTS_PER_CATEGORY c := by
  have step1 : catSum answers c
      ≤ ((answers.map (fun a => a.questionId)).map (maxPointsOfId c)).sum := by
    rw [catSum, List.map_map]
    exact List.sum_le_sum (fun a ha => valid_answer_le_maxPointsOfId c a (hvalid a ha))
  have step2 : ((answers.map (fun a => a.questionId)).map (maxPointsOfId c)).sum
      ≤ ((ASSESSMENT_QUESTIONS.map (fun q => q.id)).map (maxPointsOfId c)).sum := by
    apply sum_map_le_of_nodup_subset _ _ _ hnodup assessment_ids_nodup
    intro x hx
    obtain ⟨a, ha, rfl⟩ := List.mem_map.mp hx
    have hv := hvalid a ha
    unfold validateAnswer at hv
    cases hfq : ASSESSMENT_QUESTIONS.find? (fun q => q.id = a.questionId) with
    | none => simp [hfq] at hv
    | some q =>
      have hqid : q.id = a.questionId := by
        have := List.find?_some hfq
        simpa using this
      rw [← hqid]
      exact List.mem_map_of_mem _ (List.mem_of_find?_eq_some hfq)
  have step3 : ((ASSESSMENT_QUESTIONS.map (fun q => q.id)).map (maxPointsOfId c)).sum
      = MAX_POINTS_PER_CATEGORY c := by
    cases c <;> decide
  omega

theorem calculateCategoryPercentage_le_100 (s : ℕ) (c : Category)
    (h : s ≤ MAX_POINTS_PER_CATEGORY c) : calculateCategoryPercentage s c ≤ 100 := by
  have hrw : calculateCategoryPercentage s c =
      if MAX_POINTS_PER_CATEGORY c = 0 then 0
      else natRound (s * 100) (MAX_POINTS_PER_CATEGORY c) := rfl
  rw [hrw]
  set m := MAX_POINTS_PER_CATEGORY c with hm
  by_cases hm0 : m = 0
  · simp [hm0]
  · rw [if_neg hm0, natRound]
    have h1 : 2 * (s * 100) + m ≤ 201 * m := by omega
    calc (2 * (s * 100) + m) / (2 * m) ≤ (201 * m) / (2 * m) := Nat.div_le_div_right h1
      _ ≤ 100 := by
          have hlt : 201 * m < 101 * (2 * m) := by omega
          have := (Nat.div_lt_iff_lt_mul (by omega : 0 < 2 * m)).mpr hlt
          omega

/-- Amended C4: when the 12 responses are individually catalog-valid AND cover
12 distinct question identifiers, every category's point sum is at most its
category maximum and every category's percentage is at most 100 (sums and
percentages are naturals, so the lower bound 0 is automatic).  The unamended
claim fails because the storage layer accepts duplicate responses for one
question, which can push a sum past the maximum (see the counterexample). -/
theorem C4_amended_bounds (answers : List AssessmentAnswer)
    (hvalid : ∀ a ∈ answers, validateAnswer a.questionId a.answerText = .ok a.points a.category)
    (hnodup : (answers.map (fun a => a.questionId)).Nodup)
    (hlen : answers.length = 12) :
    ∃ r : ScoringResult, calculateRiskScore answers = .ok r
      ∧ (∀ c : Category, r.categoryScores.get c ≤ MAX_POINTS_PER_CATEGORY c)
      ∧ (∀ c : Category, r.categoryPercentages.get c ≤ 100) := by
  refine ⟨_, calculateRiskScore_ok answers hlen, ?_, ?_⟩
  · intro c
    cases c <;> exact catSum_le_max answers hvalid hnodup _
  · intro c
    cases c
    case behavioral =>
      exact calculateCategoryPercentage_le_100 (catSum answers .behavioral) .behavioral
        (catSum_le_max answers hvalid hnodup .behavioral)
    case knowledge =>
      exact calculateCategoryPercentage_le_100 (catSum answers .knowledge) .knowledge
        (catSum_le_max answers hvalid hnodup .knowledge)
    case environmental =>
      exact calculateCategoryPercentage_le_100 (catSum answers .environmental) .environmental
        (catSum_le_max answers hvalid hnodup .environmental)
    case socioeconomic =>
      exact calculateCategoryPercentage_le_100 (catSum answers .socioeconomic) .socioeconomic
        (catSum_le_max answers hvalid hnodup .socioeconomic)

/-- Witness for the amended C4 at the concrete valid answer set `c1Answers`. -/
theorem C4_amended_bounds_witness :
    ∃ r : ScoringResult, calculateRiskScore c1Answers = .ok r
      ∧ (∀ c : Category, r.categoryScores.get c ≤ MAX_POINTS_PER_CATEGORY c)
      ∧ (∀ c : Category, r.categoryPercentages.get c ≤ 100) :=
  C4_amended_bounds c1Answers (by decide) (by decide) (by decide)

/-- Rebuild the client-visible summary of a question from its point-erased view. -/
def erasedView (e : String × ℕ × Category × String × List String) : ClientQuestionSummary :=
  { id := e.1, number := e.2.1, category := e.2.2.1, question := e.2.2.2.1,
    options := e.2.2.2.2.map (fun t => ⟨t⟩) }

theorem summary_factors (q : AssessmentQuestion) :
    ClientQuestionSummary.mk q.id q.number q.category q.question
      (q.options.map (fun opt => ⟨opt.text⟩))
      = erasedView (erasePoints q) := by
  simp [erasedView, erasePoints, List.map_map, Function.comp]

theorem find?_number_erase (c : List AssessmentQuestion) :
    ∀ (c' : List AssessmentQuestion), c.map erasePoints = c'.map erasePoints → ∀ n : ℕ,
      (c.find? (fun q => q.number = n)).map erasePoints
        = (c'.find? (fun q => q.number = n)).map erasePoints := by
  induction c with
  | nil =>
    intro c' h n
    cases c' with
    | nil => rfl
    | cons _ _ => simp at h
  | cons hd tl ih =>
    intro c' h n
    cases c' with
    | nil => simp at h
    | cons hd' tl' =>
      simp only [List.map_cons, List.cons.injEq] at h
      obtain ⟨hh, ht⟩ := h
      have hnum : hd.number = hd'.number := by
        have := congrArg (fun e => e.2.1) hh
        simpa [erasePoints] using this
      by_cases hn : hd.number = n
      · have hn' : hd'.number = n := by rw [← hnum]; exact hn
        rw [List.find?_cons_of_pos _ (by simp [hn]), List.find?_cons_of_pos _ (by simp [hn'])]
        simp [hh]
      · have hn' : ¬hd'.number = n := by rw [← hnum]; exact hn
        rw [List.find?_cons_of_neg _ (by simp [hn]), List.find?_cons_of_neg _ (by simp [hn'])]
        exact ih tl' ht n

/-- Claim C9: the question-retrieval operations never expose point values, and
their output is invariant under any change to the catalog's option point
values: for any two catalogs equal after erasing points (same ids, ordinals,
categories, prompts, and option labels — only point values may differ),
`getQuestion` returns identical values for every store, session and ordinal,
and `getQuestions` returns identical values.  The returned shapes
(`ClientQuestion`, `ClientQuestionSummary`) carry option labels only. -/
theorem C9_points_noninterference (catalog catalog' : List AssessmentQuestion)
    (h : catalog.map erasePoints = catalog'.map erasePoints) :
    (∀ (st : DbState) (sessionId : String) (questionNumber : ℕ),
      getQuestionImpl catalog st sessionId questionNumber
        = getQuestionImpl catalog' st sessionId questionNumber)
    ∧ getQuestionsImpl catalog = getQuestionsImpl catalog' := by
  have hlen : catalog.length = catalog'.length := by
    have := congrArg List.length h
    simpa using this
  constructor
  · intro st sessionId n
    unfold getQuestionImpl
    cases hsess : getAssessmentSession st sessionId with
    | none => rfl
    | some s =>
      have hf := find?_number_erase catalog catalog' h n
      cases h1 : catalog.find? (fun q => q.number = n) with
      | none =>
        cases h2 : catalog'.find? (fun q => q.number = n) with
        | none => rfl
        | some q' => rw [h1, h2] at hf; simp at hf
      | some q =>
        cases h2 : catalog'.find? (fun q => q.number = n) with
        | none => rw [h1, h2] at hf; simp at hf
        | some q' =>
          rw [h1, h2] at hf
          simp only [Option.map_some', Option.some.injEq] at hf
          have hid : q.id = q'.id := by
            have := congrArg (fun e => e.1) hf
            simpa [erasePoints] using this
          have hnum : q.number = q'.number := by
            have := congrArg (fun e => e.2.1) hf
            simpa [erasePoints] using this
          have hcat : q.category = q'.category := by
            have := congrArg (fun e => e.2.2.1) hf
            simpa [erasePoints] using this
          have hq : q.question = q'.question := by
            have := congrArg (fun e => e.2.2.2.1) hf
            simpa [erasePoints] using this
          have hopts : q.options.map (fun o => o.text) = q'.options.map (fun o => o.text) := by
            have := congrArg (fun e => e.2.2.2.2) hf
            simpa [erasePoints] using this
          have hview : q.options.map (fun opt => (⟨opt.text⟩ : ClientOption))
              = q'.options.map (fun opt => (⟨opt.text⟩ : ClientOption)) := by
            have := congrArg (List.map (fun t => (⟨t⟩ : ClientOption))) hopts
            simpa [List.map_map, Function.comp] using this
          simp [hid, hnum, hcat, hq, hview, hlen]
  · unfold getQuestionsImpl
    have hview : ∀ (cat : List AssessmentQuestion),
        cat.map (fun q => ClientQuestionSummary.mk q.id q.number q.category q.question
          (q.options.map (fun opt => ⟨opt.text⟩)))
          = (cat.map erasePoints).map erasedView := by
      intro cat
      rw [List.map_map]
      exact List.map_congr_left (fun q _ => summary_factors q)
    rw [Prod.ext_iff]
    constructor
    · rw [hview catalog, hview catalog', h]
    · exact hlen

/-- One-question catalogs differing only in a point value (3 versus 99). -/
def c9Catalog : List AssessmentQuestion :=
  [{ id := "q1", number := 1, category := .behavioral, question := "Sample?",
     options := [⟨"No", 0⟩, ⟨"Yes", 3⟩] }]

/-- The same catalog with the second option worth 99 points instead of 3. -/
def c9CatalogAltered : List AssessmentQuestion :=
  [{ id := "q1", number := 1, category := .behavioral, question := "Sample?",
     options := [⟨"No", 0⟩, ⟨"Yes", 99⟩] }]

/-- Witness for C9: the two catalogs differ only in a point value, and both
retrieval operations return identical values on a concrete store. -/
theorem C9_points_noninterference_witness :
    getQuestionImpl c9Catalog ⟨[⟨"s1", .in_progress⟩], [], []⟩ "s1" 1
      = getQuestionImpl c9CatalogAltered ⟨[⟨"s1", .in_progress⟩], [], []⟩ "s1" 1
    ∧ getQuestionsImpl c9Catalog = getQuestionsImpl c9CatalogAltered :=
  ⟨(C9_points_noninterference c9Catalog c9CatalogAltered (by decide)).1
      ⟨[⟨"s1", .in_progress⟩], [], []⟩ "s1" 1,
   (C9_points_noninterference c9Catalog c9CatalogAltered (by decide)).2⟩
